import Mathlib

/-!
Verification of the callback-registration and spawn-protocol specification of
the `unshare` process-launching library.

The registration surface (`before_unfreeze`, `before_chroot`, `before_exec`)
is embedded directly from `src/src/callbacks.rs`.  The spawn protocol itself
(fork coordinator, barrier, error channel, child setup sequencer) is not part
of the given source fragment, so it is modelled from the specification text;
every such definition carries a doc comment starting with
`Modelled from the spec:`.
-/

namespace Unshare

/-- Modelled from the spec: the `BoxError` payload returned by a
`before_unfreeze` callback, reduced to the OS error code that the spec says
surfaces in `UnfreezeCallbackError{code}` (the boxed error type itself is
outside the given source fragment). -/
structure BoxError where
  code : Int
deriving DecidableEq

/-- Modelled from the spec: `io::Error`, reduced to its OS error code, which
is what the spec says travels over the error channel. -/
structure IoError where
  code : Int
deriving DecidableEq

/-- Callback type of the `before_unfreeze` slot: takes the child identifier
(`u32` pid) and returns `Result<(), BoxError>` (`callbacks.rs` lines 22-23). -/
def UnfreezeCb : Type := Nat → Except BoxError Unit

/-- Callback type of the `before_chroot` slot: takes nothing and returns
`io::Result<()>` (`callbacks.rs` lines 33-34). -/
def ChrootCb : Type := Unit → Except IoError Unit

/-- Callback type of the `before_exec` slot: takes nothing and returns
`io::Result<()>` (`callbacks.rs` lines 56-57). -/
def ExecCb : Type := Unit → Except IoError Unit

/-- The `Command` data holder.  The three callback slots are those assigned by
`callbacks.rs`; the remaining fields are Modelled from the spec: §3 CommandSpec
(argv, env, working directory, chroot target path, uid/gid mapping tables),
since the struct definition itself is not under the given source fragment. -/
structure Command where
  argv : List String
  env : List (String × String)
  workdir : String
  chroot_dir : String
  uid_map : List (Nat × Nat × Nat)
  gid_map : List (Nat × Nat × Nat)
  before_unfreeze : Option UnfreezeCb
  before_chroot : Option ChrootCb
  before_exec : Option ExecCb

/-- Embeds `Command::before_unfreeze` (`callbacks.rs` lines 22-26):
`self.before_unfreeze = Some(Box::new(f));`.  Rust mutates `self` and returns
`()`; the embedding passes the state explicitly and returns the updated
`Command` (total, no error component). -/
def Command.set_before_unfreeze (c : Command) (f : UnfreezeCb) : Command :=
  { c with before_unfreeze := some f }

/-- Embeds `Command::before_chroot` (`callbacks.rs` lines 33-37):
`self.before_chroot = Some(Box::new(f));`. -/
def Command.set_before_chroot (c : Command) (f : ChrootCb) : Command :=
  { c with before_chroot := some f }

/-- Embeds `Command::before_exec` (`callbacks.rs` lines 56-60):
`self.before_exec = Some(Box::new(f));`. -/
def Command.set_before_exec (c : Command) (f : ExecCb) : Command :=
  { c with before_exec := some f }

/-- Modelled from the spec: the failing stage of an `ErrorReport`
(§3, §6: `Stage ∈ {Unfreeze, Chroot, Exec}`). -/
inductive Stage where
  | Unfreeze
  | Chroot
  | Exec
deriving DecidableEq

/-- Modelled from the spec: the `stage_tag` byte of the wire format
(§6: `{Unfreeze=0, Chroot=1, Exec=2}`). -/
def Stage.tag : Stage → Nat
  | .Unfreeze => 0
  | .Chroot => 1
  | .Exec => 2

/-- Modelled from the spec: `ErrorReport { stage : Stage, code : i32 }`
(§3), the record written on the error channel by a failing child step. -/
structure ErrorReport where
  stage : Stage
  code : Int
deriving DecidableEq

/-- Modelled from the spec: the little-endian four-byte encoding of the
`os_error_code: i32` field of the wire record (§6), with the code reduced
modulo 2^32 as the i32 bit pattern. -/
def i32leBytes (code : Int) : List Nat :=
  let u : Nat := (code % (4294967296 : Int)).toNat
  [u % 256, u / 256 % 256, u / 65536 % 256, u / 16777216 % 256]

/-- Modelled from the spec: the fixed-size wire record
`{ stage_tag: u8, os_error_code: i32 }` (§6), written as one atomic small
write, so one channel message is one such byte list. -/
def encodeReport (r : ErrorReport) : List Nat :=
  r.stage.tag :: i32leBytes r.code

/-- Modelled from the spec: the parent-side decoding of one wire record
(§6, §4.4): a five-byte message whose first byte selects the stage and whose
remaining four bytes are the little-endian i32 error code. -/
def decodeReport (bs : List Nat) : Option ErrorReport :=
  match bs with
  | [t, b0, b1, b2, b3] =>
    let u : Nat := b0 + 256 * b1 + 65536 * b2 + 16777216 * b3
    let code : Int := if u < 2147483648 then (u : Int) else (u : Int) - 4294967296
    match t with
    | 0 => some ⟨Stage.Unfreeze, code⟩
    | 1 => some ⟨Stage.Chroot, code⟩
    | 2 => some ⟨Stage.Exec, code⟩
    | _ => none
  | _ => none

/-- Modelled from the spec: the observable events of one spawn execution, in
the order they occur (§5 ordering guarantees; §4.2-§4.4).  A `Done` event
marks the successful completion of the step; a step that fails emits no
`Done` event.  An absent callback slot completes its step trivially. -/
inductive Event where
  | beforeUnfreezeDone
  | barrierRelease
  | beforeChrootDone
  | chrootDone
  | beforeExecDone
  | execDone
  | reportWrite (r : ErrorReport)
deriving DecidableEq

/-- Modelled from the spec: the position of each event in the canonical total
order of §5 (report writes come last, after the failing step). -/
def Event.rank : Event → Nat
  | .beforeUnfreezeDone => 0
  | .barrierRelease => 1
  | .beforeChrootDone => 2
  | .chrootDone => 3
  | .beforeExecDone => 4
  | .execDone => 5
  | .reportWrite _ => 6

/-- Modelled from the spec: the error taxonomy of §7, each child-side variant
carrying the OS error code reported over the error channel. -/
inductive SpawnError where
  | SetupError (code : Int)
  | UnfreezeCallbackError (code : Int)
  | ChrootCallbackError (code : Int)
  | ChrootSyscallError (code : Int)
  | ExecCallbackError (code : Int)
  | ExecSyscallError (code : Int)
  | UnknownEarlyTermination
deriving DecidableEq

/-- Modelled from the spec: the child state machine of §4.4:
`Forked → Frozen → Unfrozen → Chrooted → Execd` or `Failed(stage)`; `Killed`
is the state after the parent forcibly terminates a never-unfrozen child
(§4.2, §7). -/
inductive ChildState where
  | Forked
  | Frozen
  | Unfrozen
  | Chrooted
  | Execd
  | Failed (s : Stage)
  | Killed
deriving DecidableEq

/-- Modelled from the spec: the outcomes of the OS steps a spawn performs
(uid/gid mapping write in the parent, chroot and exec syscalls in the child),
which are environment inputs to the protocol. -/
structure OsOracle where
  uidMapResult : Except BoxError Unit
  chrootResult : Except IoError Unit
  execResult : Except IoError Unit

/-- Modelled from the spec: the observable outcome of one spawn call:
the caller-visible result (§6), the ordered event trace, the list of atomic
error-channel writes (§4.4: at most one), whether the child process still
exists when the call returns with an error or has reached exec (§7), and the
terminal state of the child state machine (§4.4). -/
structure SpawnOutcome where
  result : Except SpawnError Nat
  events : List Event
  writes : List ErrorReport
  childExists : Bool
  childState : ChildState

/-- Runs the `before_unfreeze` slot with the child identifier; an empty slot
completes trivially (the spec runs the callback only `if registered`, §4.2). -/
def runUnfreeze (slot : Option UnfreezeCb) (pid : Nat) : Except BoxError Unit :=
  match slot with
  | none => Except.ok ()
  | some f => f pid

/-- Runs a child-side callback slot; an empty slot completes trivially
(§4.3: `invoke ... if registered`). -/
def runChildCb (slot : Option (Unit → Except IoError Unit)) : Except IoError Unit :=
  match slot with
  | none => Except.ok ()
  | some f => f ()

/-- Modelled from the spec: one spawn execution (§4.2-§4.4, §5, §7).
Parent: write uid/gid mappings, run `before_unfreeze` with the child pid,
release the barrier; a failure before the release kills the never-unfrozen
child and returns the error directly.  Child (after release): run
`before_chroot`, chroot, run `before_exec`, exec; the first failure writes one
`ErrorReport` for the failing stage on the error channel and terminates the
child at once, and the parent returns the decoded typed error. -/
def spawn (cmd : Command) (pid : Nat) (os : OsOracle) : SpawnOutcome :=
  match os.uidMapResult with
  | Except.error e =>
    { result := Except.error (SpawnError.SetupError e.code)
      events := [], writes := [], childExists := false, childState := ChildState.Killed }
  | Except.ok _ =>
  match runUnfreeze cmd.before_unfreeze pid with
  | Except.error e =>
    { result := Except.error (SpawnError.UnfreezeCallbackError e.code)
      events := [], writes := [], childExists := false, childState := ChildState.Killed }
  | Except.ok _ =>
  match runChildCb cmd.before_chroot with
  | Except.error e =>
    { result := Except.error (SpawnError.ChrootCallbackError e.code)
      events := [Event.beforeUnfreezeDone, Event.barrierRelease,
                 Event.reportWrite ⟨Stage.Chroot, e.code⟩]
      writes := [⟨Stage.Chroot, e.code⟩]
      childExists := false, childState := ChildState.Failed Stage.Chroot }
  | Except.ok _ =>
  match os.chrootResult with
  | Except.error e =>
    { result := Except.error (SpawnError.ChrootSyscallError e.code)
      events := [Event.beforeUnfreezeDone, Event.barrierRelease,
                 Event.beforeChrootDone, Event.reportWrite ⟨Stage.Chroot, e.code⟩]
      writes := [⟨Stage.Chroot, e.code⟩]
      childExists := false, childState := ChildState.Failed Stage.Chroot }
  | Except.ok _ =>
  match runChildCb cmd.before_exec with
  | Except.error e =>
    { result := Except.error (SpawnError.ExecCallbackError e.code)
      events := [Event.beforeUnfreezeDone, Event.barrierRelease,
                 Event.beforeChrootDone, Event.chrootDone,
                 Event.reportWrite ⟨Stage.Exec, e.code⟩]
      writes := [⟨Stage.Exec, e.code⟩]
      childExists := false, childState := ChildState.Failed Stage.Exec }
  | Except.ok _ =>
  match os.execResult with
  | Except.error e =>
    { result := Except.error (SpawnError.ExecSyscallError e.code)
      events := [Event.beforeUnfreezeDone, Event.barrierRelease,
                 Event.beforeChrootDone, Event.chrootDone,
                 Event.beforeExecDone, Event.reportWrite ⟨Stage.Exec, e.code⟩]
      writes := [⟨Stage.Exec, e.code⟩]
      childExists := false, childState := ChildState.Failed Stage.Exec }
  | Except.ok _ =>
    { result := Except.ok pid
      events := [Event.beforeUnfreezeDone, Event.barrierRelease,
                 Event.beforeChrootDone, Event.chrootDone,
                 Event.beforeExecDone, Event.execDone]
      writes := [], childExists := true, childState := ChildState.Execd }

/-- Event `a` precedes event `b` in trace `t`: every occurrence of `a` is at a
strictly smaller index than every occurrence of `b`. -/
def orderedIn (t : List Event) (a b : Event) : Prop :=
  ∀ i j, (hi : i < t.length) → (hj : j < t.length) →
    t.get ⟨i, hi⟩ = a → t.get ⟨j, hj⟩ = b → i < j

/-- A trace that is strictly increasing in rank orders any two events of
strictly increasing rank. -/
theorem orderedIn_of_rank_sorted {t : List Event}
    (hs : t.Pairwise (fun x y => x.rank < y.rank)) {a b : Event}
    (hab : a.rank < b.rank) : orderedIn t a b := by
  intro i j hi hj ha hb
  rcases lt_trichotomy i j with h | h | h
  · exact h
  · subst h
    rw [ha] at hb
    rw [hb] at hab
    omega
  · have hlt := List.pairwise_iff_get.mp hs ⟨j, hj⟩ ⟨i, hi⟩ h
    rw [ha, hb] at hlt
    omega

/-- Every trace that `spawn` can produce is strictly increasing in the
canonical event rank. -/
theorem spawn_events_rank_sorted (cmd : Command) (pid : Nat) (os : OsOracle) :
    ((spawn cmd pid os).events).Pairwise (fun x y => x.rank < y.rank) := by
  unfold spawn
  cases os.uidMapResult with
  | error e => simp
  | ok u =>
    cases runUnfreeze cmd.before_unfreeze pid with
    | error e => simp
    | ok u2 =>
      cases runChildCb cmd.before_chroot with
      | error e => simp [Event.rank]
      | ok u3 =>
        cases os.chrootResult with
        | error e => simp [Event.rank]
        | ok u4 =>
          cases runChildCb cmd.before_exec with
          | error e => simp [Event.rank]
          | ok u5 =>
            cases os.execResult with
            | error e => simp [Event.rank]
            | ok u6 => simp [Event.rank]

/-- C2: in every spawn execution the five stage orderings hold in the event
trace: `before_unfreeze` completion precedes barrier release, which precedes
`before_chroot` completion, which precedes the chroot syscall, which precedes
`before_exec` completion, which precedes exec. -/
theorem spawn_stage_ordering (cmd : Command) (pid : Nat) (os : OsOracle) :
    orderedIn (spawn cmd pid os).events Event.beforeUnfreezeDone Event.barrierRelease ∧
    orderedIn (spawn cmd pid os).events Event.barrierRelease Event.beforeChrootDone ∧
    orderedIn (spawn cmd pid os).events Event.beforeChrootDone Event.chrootDone ∧
    orderedIn (spawn cmd pid os).events Event.chrootDone Event.beforeExecDone ∧
    orderedIn (spawn cmd pid os).events Event.beforeExecDone Event.execDone :=
  ⟨orderedIn_of_rank_sorted (spawn_events_rank_sorted cmd pid os) (by decide),
   orderedIn_of_rank_sorted (spawn_events_rank_sorted cmd pid os) (by decide),
   orderedIn_of_rank_sorted (spawn_events_rank_sorted cmd pid os) (by decide),
   orderedIn_of_rank_sorted (spawn_events_rank_sorted cmd pid os) (by decide),
   orderedIn_of_rank_sorted (spawn_events_rank_sorted cmd pid os) (by decide)⟩

/-- Applies a whole sequence of `before_unfreeze` registrations in order. -/
def registerAllUnfreeze (c : Command) (fs : List UnfreezeCb) : Command :=
  fs.foldl Command.set_before_unfreeze c

/-- Applies a whole sequence of `before_chroot` registrations in order. -/
def registerAllChroot (c : Command) (fs : List ChrootCb) : Command :=
  fs.foldl Command.set_before_chroot c

/-- Applies a whole sequence of `before_exec` registrations in order. -/
def registerAllExec (c : Command) (fs : List ExecCb) : Command :=
  fs.foldl Command.set_before_exec c

theorem registerAllUnfreeze_eq (c : Command) (fs : List UnfreezeCb) (f : UnfreezeCb)
    (h : fs.getLast? = some f) :
    registerAllUnfreeze c fs = { c with before_unfreeze := some f } := by
  induction fs generalizing c with
  | nil => simp at h
  | cons g gs ih =>
    cases gs with
    | nil =>
      simp at h
      subst h
      rfl
    | cons g2 gs2 =>
      have h2 : (g2 :: gs2).getLast? = some f := by
        simpa [List.getLast?_cons_cons] using h
      have hrest := ih (c := c.set_before_unfreeze g) h2
      rw [show registerAllUnfreeze c (g :: g2 :: gs2)
            = registerAllUnfreeze (c.set_before_unfreeze g) (g2 :: gs2) from rfl, hrest]
      rfl

theorem registerAllChroot_eq (c : Command) (fs : List ChrootCb) (f : ChrootCb)
    (h : fs.getLast? = some f) :
    registerAllChroot c fs = { c with before_chroot := some f } := by
  induction fs generalizing c with
  | nil => simp at h
  | cons g gs ih =>
    cases gs with
    | nil =>
      simp at h
      subst h
      rfl
    | cons g2 gs2 =>
      have h2 : (g2 :: gs2).getLast? = some f := by
        simpa [List.getLast?_cons_cons] using h
      have hrest := ih (c := c.set_before_chroot g) h2
      rw [show registerAllChroot c (g :: g2 :: gs2)
            = registerAllChroot (c.set_before_chroot g) (g2 :: gs2) from rfl, hrest]
      rfl

theorem registerAllExec_eq (c : Command) (fs : List ExecCb) (f : ExecCb)
    (h : fs.getLast? = some f) :
    registerAllExec c fs = { c with before_exec := some f } := by
  induction fs generalizing c with
  | nil => simp at h
  | cons g gs ih =>
    cases gs with
    | nil =>
      simp at h
      subst h
      rfl
    | cons g2 gs2 =>
      have h2 : (g2 :: gs2).getLast? = some f := by
        simpa [List.getLast?_cons_cons] using h
      have hrest := ih (c := c.set_before_exec g) h2
      rw [show registerAllExec c (g :: g2 :: gs2)
            = registerAllExec (c.set_before_exec g) (g2 :: gs2) from rfl, hrest]
      rfl

/-- C1: for every sequence of registrations into the same slot, only the
last-registered callback occupies that slot at spawn time, and spawning the
command built by the whole sequence behaves exactly like spawning the command
with just the last callback registered, so the last one is the one invoked. -/
theorem last_registration_wins (c : Command) (pid : Nat) (os : OsOracle) :
    (∀ (fs : List UnfreezeCb) (f : UnfreezeCb), fs.getLast? = some f →
      (registerAllUnfreeze c fs).before_unfreeze = some f ∧
      spawn (registerAllUnfreeze c fs) pid os = spawn (c.set_before_unfreeze f) pid os) ∧
    (∀ (fs : List ChrootCb) (f : ChrootCb), fs.getLast? = some f →
      (registerAllChroot c fs).before_chroot = some f ∧
      spawn (registerAllChroot c fs) pid os = spawn (c.set_before_chroot f) pid os) ∧
    (∀ (fs : List ExecCb) (f : ExecCb), fs.getLast? = some f →
      (registerAllExec c fs).before_exec = some f ∧
      spawn (registerAllExec c fs) pid os = spawn (c.set_before_exec f) pid os) := by
  refine ⟨fun fs f h => ?_, fun fs f h => ?_, fun fs f h => ?_⟩
  · rw [registerAllUnfreeze_eq c fs f h]
    exact ⟨rfl, rfl⟩
  · rw [registerAllChroot_eq c fs f h]
    exact ⟨rfl, rfl⟩
  · rw [registerAllExec_eq c fs f h]
    exact ⟨rfl, rfl⟩

/-- C3: if the registered `before_unfreeze` callback returns an error, the
barrier is never released, no `before_chroot` or `before_exec` step runs, the
parent terminates the child (it no longer exists afterward, nothing was
written on the error channel) and spawn returns `UnfreezeCallbackError`
carrying the callback's code. -/
theorem unfreeze_failure_kills_child (cmd : Command) (pid : Nat) (os : OsOracle)
    (f : UnfreezeCb) (e : BoxError)
    (hmap : os.uidMapResult = Except.ok ())
    (hreg : cmd.before_unfreeze = some f)
    (hf : f pid = Except.error e) :
    (spawn cmd pid os).result = Except.error (SpawnError.UnfreezeCallbackError e.code) ∧
    Event.barrierRelease ∉ (spawn cmd pid os).events ∧
    Event.beforeChrootDone ∉ (spawn cmd pid os).events ∧
    Event.beforeExecDone ∉ (spawn cmd pid os).events ∧
    (spawn cmd pid os).writes = [] ∧
    (spawn cmd pid os).childExists = false := by
  have hrun : runUnfreeze cmd.before_unfreeze pid = Except.error e := by
    rw [hreg]
    exact hf
  unfold spawn
  rw [hmap, hrun]
  simp

/-- C4: any failure in a child-side step writes exactly one `ErrorReport`
naming the failing stage on the error channel and terminates the child at
once, skipping every later step: a `before_chroot` error means chroot is
never attempted and `before_exec` never runs; a chroot-syscall error means
`before_exec` never runs; a `before_exec` error means exec is never
attempted. -/
theorem child_failure_reports_and_stops (cmd : Command) (pid : Nat) (os : OsOracle)
    (hmap : os.uidMapResult = Except.ok ())
    (hunf : runUnfreeze cmd.before_unfreeze pid = Except.ok ()) :
    (∀ e : IoError, runChildCb cmd.before_chroot = Except.error e →
      (spawn cmd pid os).writes = [⟨Stage.Chroot, e.code⟩] ∧
      (spawn cmd pid os).result = Except.error (SpawnError.ChrootCallbackError e.code) ∧
      (spawn cmd pid os).childState = ChildState.Failed Stage.Chroot ∧
      (spawn cmd pid os).childExists = false ∧
      Event.chrootDone ∉ (spawn cmd pid os).events ∧
      Event.beforeExecDone ∉ (spawn cmd pid os).events ∧
      Event.execDone ∉ (spawn cmd pid os).events) ∧
    (∀ e : IoError, runChildCb cmd.before_chroot = Except.ok () →
      os.chrootResult = Except.error e →
      (spawn cmd pid os).writes = [⟨Stage.Chroot, e.code⟩] ∧
      (spawn cmd pid os).result = Except.error (SpawnError.ChrootSyscallError e.code) ∧
      (spawn cmd pid os).childState = ChildState.Failed Stage.Chroot ∧
      (spawn cmd pid os).childExists = false ∧
      Event.beforeExecDone ∉ (spawn cmd pid os).events ∧
      Event.execDone ∉ (spawn cmd pid os).events) ∧
    (∀ e : IoError, runChildCb cmd.before_chroot = Except.ok () →
      os.chrootResult = Except.ok () →
      runChildCb cmd.before_exec = Except.error e →
      (spawn cmd pid os).writes = [⟨Stage.Exec, e.code⟩] ∧
      (spawn cmd pid os).result = Except.error (SpawnError.ExecCallbackError e.code) ∧
      (spawn cmd pid os).childState = ChildState.Failed Stage.Exec ∧
      (spawn cmd pid os).childExists = false ∧
      Event.execDone ∉ (spawn cmd pid os).events) ∧
    (∀ e : IoError, runChildCb cmd.before_chroot = Except.ok () →
      os.chrootResult = Except.ok () →
      runChildCb cmd.before_exec = Except.ok () →
      os.execResult = Except.error e →
      (spawn cmd pid os).writes = [⟨Stage.Exec, e.code⟩] ∧
      (spawn cmd pid os).result = Except.error (SpawnError.ExecSyscallError e.code) ∧
      (spawn cmd pid os).childState = ChildState.Failed Stage.Exec ∧
      (spawn cmd pid os).childExists = false) := by
  refine ⟨fun e hbc => ?_, fun e hbc hcr => ?_, fun e hbc hcr hbe => ?_,
          fun e hbc hcr hbe hex => ?_⟩
  · unfold spawn
    rw [hmap, hunf, hbc]
    simp
  · unfold spawn
    rw [hmap, hunf, hbc, hcr]
    simp
  · unfold spawn
    rw [hmap, hunf, hbc, hcr, hbe]
    simp
  · unfold spawn
    rw [hmap, hunf, hbc, hcr, hbe, hex]
    simp

theorem i32_sum_eq (c : Int) :
    (c % 4294967296).toNat % 256 + 256 * ((c % 4294967296).toNat / 256 % 256)
      + 65536 * ((c % 4294967296).toNat / 65536 % 256)
      + 16777216 * ((c % 4294967296).toNat / 16777216 % 256)
      = (c % 4294967296).toNat := by
  omega

theorem i32_unsign_eq (c : Int) (h1 : -2147483648 ≤ c) (h2 : c < 2147483648) :
    (if (c % 4294967296).toNat < 2147483648 then (((c % 4294967296).toNat : Nat) : Int)
     else (((c % 4294967296).toNat : Nat) : Int) - 4294967296) = c := by
  split <;> omega

/-- Decoding inverts encoding on every report whose code is in i32 range, so
the five-byte message faithfully carries the record. -/
theorem decodeReport_encodeReport (r : ErrorReport)
    (h1 : -2147483648 ≤ r.code) (h2 : r.code < 2147483648) :
    decodeReport (encodeReport r) = some r := by
  obtain ⟨s, c⟩ := r
  cases s <;>
    simp only [encodeReport, i32leBytes, Stage.tag, decodeReport] <;>
    rw [i32_sum_eq c, i32_unsign_eq c h1 h2]

/-- Every spawn performs at most one error-channel write. -/
theorem spawn_writes_le_one (cmd : Command) (pid : Nat) (os : OsOracle) :
    (spawn cmd pid os).writes.length ≤ 1 := by
  unfold spawn
  cases os.uidMapResult with
  | error e => simp
  | ok u =>
    cases runUnfreeze cmd.before_unfreeze pid with
    | error e => simp
    | ok u2 =>
      cases runChildCb cmd.before_chroot with
      | error e => simp
      | ok u3 =>
        cases os.chrootResult with
        | error e => simp
        | ok u4 =>
          cases runChildCb cmd.before_exec with
          | error e => simp
          | ok u5 =>
            cases os.execResult with
            | error e => simp
            | ok u6 => simp

/-- C5: each error-channel message is the fixed-size record
`stage_tag: u8, os_error_code: i32` — five bytes, one atomic write per spawn
at most, tags `Unfreeze=0, Chroot=1, Exec=2`, decodable back to the exact
report — and the OS error code of an I/O error returned by the `before_exec`
callback is written for stage `Exec` and returned as the spawn call's
error. -/
theorem error_channel_wire_format (cmd : Command) (pid : Nat) (os : OsOracle) :
    (Stage.Unfreeze.tag = 0 ∧ Stage.Chroot.tag = 1 ∧ Stage.Exec.tag = 2) ∧
    (∀ r : ErrorReport, (encodeReport r).length = 5 ∧
      (-2147483648 ≤ r.code → r.code < 2147483648 →
        decodeReport (encodeReport r) = some r)) ∧
    (spawn cmd pid os).writes.length ≤ 1 ∧
    (∀ e : IoError,
      os.uidMapResult = Except.ok () →
      runUnfreeze cmd.before_unfreeze pid = Except.ok () →
      runChildCb cmd.before_chroot = Except.ok () →
      os.chrootResult = Except.ok () →
      runChildCb cmd.before_exec = Except.error e →
      (spawn cmd pid os).writes = [⟨Stage.Exec, e.code⟩] ∧
      (spawn cmd pid os).result
        = Except.error (SpawnError.ExecCallbackError e.code)) := by
  refine ⟨⟨rfl, rfl, rfl⟩, fun r => ⟨?_, fun h1 h2 => decodeReport_encodeReport r h1 h2⟩,
          spawn_writes_le_one cmd pid os, fun e hmap hunf hbc hcr hbe => ?_⟩
  · cases r with
    | mk s c => cases s <;> rfl
  · unfold spawn
    rw [hmap, hunf, hbc, hcr, hbe]
    simp

/-- C6: the registration surface has exactly the specified signatures: the
`before_unfreeze` slot holds a callback taking the child identifier and
returning `Result Unit Error`, while the `before_chroot` and `before_exec`
slots hold callbacks taking nothing and returning `Result Unit IoError`;
registering stores the callback at that type in its slot. -/
theorem registration_signatures :
    (UnfreezeCb = (Nat → Except BoxError Unit)) ∧
    (ChrootCb = (Unit → Except IoError Unit)) ∧
    (ExecCb = (Unit → Except IoError Unit)) ∧
    (∀ (c : Command) (f : UnfreezeCb), (c.set_before_unfreeze f).before_unfreeze = some f) ∧
    (∀ (c : Command) (g : ChrootCb), (c.set_before_chroot g).before_chroot = some g) ∧
    (∀ (c : Command) (k : ExecCb), (c.set_before_exec k).before_exec = some k) :=
  ⟨rfl, rfl, rfl, fun _ _ => rfl, fun _ _ => rfl, fun _ _ => rfl⟩

/-- C7: registering a callback in one slot changes only that slot: every
other callback slot and every remaining `Command` field is unchanged. -/
theorem registration_frame (c : Command) (f : UnfreezeCb) (g : ChrootCb) (k : ExecCb) :
    ((c.set_before_unfreeze f).argv = c.argv ∧
     (c.set_before_unfreeze f).env = c.env ∧
     (c.set_before_unfreeze f).workdir = c.workdir ∧
     (c.set_before_unfreeze f).chroot_dir = c.chroot_dir ∧
     (c.set_before_unfreeze f).uid_map = c.uid_map ∧
     (c.set_before_unfreeze f).gid_map = c.gid_map ∧
     (c.set_before_unfreeze f).before_chroot = c.before_chroot ∧
     (c.set_before_unfreeze f).before_exec = c.before_exec) ∧
    ((c.set_before_chroot g).argv = c.argv ∧
     (c.set_before_chroot g).env = c.env ∧
     (c.set_before_chroot g).workdir = c.workdir ∧
     (c.set_before_chroot g).chroot_dir = c.chroot_dir ∧
     (c.set_before_chroot g).uid_map = c.uid_map ∧
     (c.set_before_chroot g).gid_map = c.gid_map ∧
     (c.set_before_chroot g).before_unfreeze = c.before_unfreeze ∧
     (c.set_before_chroot g).before_exec = c.before_exec) ∧
    ((c.set_before_exec k).argv = c.argv ∧
     (c.set_before_exec k).env = c.env ∧
     (c.set_before_exec k).workdir = c.workdir ∧
     (c.set_before_exec k).chroot_dir = c.chroot_dir ∧
     (c.set_before_exec k).uid_map = c.uid_map ∧
     (c.set_before_exec k).gid_map = c.gid_map ∧
     (c.set_before_exec k).before_unfreeze = c.before_unfreeze ∧
     (c.set_before_exec k).before_chroot = c.before_chroot) :=
  ⟨⟨rfl, rfl, rfl, rfl, rfl, rfl, rfl, rfl⟩,
   ⟨rfl, rfl, rfl, rfl, rfl, rfl, rfl, rfl⟩,
   ⟨rfl, rfl, rfl, rfl, rfl, rfl, rfl, rfl⟩⟩

/-- C8: a spawn on a command with no callback registered in any slot, whose
OS steps succeed, reaches the `Execd` terminal state, writes nothing on the
error channel and returns the child handle. -/
theorem spawn_no_callbacks_execs (cmd : Command) (pid : Nat) (os : OsOracle)
    (h1 : cmd.before_unfreeze = none)
    (h2 : cmd.before_chroot = none)
    (h3 : cmd.before_exec = none)
    (hmap : os.uidMapResult = Except.ok ())
    (hchroot : os.chrootResult = Except.ok ())
    (hexec : os.execResult = Except.ok ()) :
    (spawn cmd pid os).childState = ChildState.Execd ∧
    (spawn cmd pid os).writes = [] ∧
    (spawn cmd pid os).result = Except.ok pid := by
  have hu : runUnfreeze cmd.before_unfreeze pid = Except.ok () := by
    rw [h1]
    rfl
  have hbc : runChildCb cmd.before_chroot = Except.ok () := by
    rw [h2]
    rfl
  have hbe : runChildCb cmd.before_exec = Except.ok () := by
    rw [h3]
    rfl
  unfold spawn
  rw [hmap, hu, hbc, hchroot, hbe, hexec]
  exact ⟨rfl, rfl, rfl⟩

/-- C9: registering the same callback into the same slot twice in succession
leaves the command in exactly the state of registering it once, for each of
the three slots. -/
theorem registration_idempotent (c : Command) (f : UnfreezeCb) (g : ChrootCb) (k : ExecCb) :
    (c.set_before_unfreeze f).set_before_unfreeze f = c.set_before_unfreeze f ∧
    (c.set_before_chroot g).set_before_chroot g = c.set_before_chroot g ∧
    (c.set_before_exec k).set_before_exec k = c.set_before_exec k :=
  ⟨rfl, rfl, rfl⟩

/-- C10: every registration call succeeds unconditionally: it is a total
state update with no error outcome, and it stores the callback whether the
target slot was previously empty or occupied. -/
theorem registration_total (c : Command) (f : UnfreezeCb) (g : ChrootCb) (k : ExecCb) :
    (({ c with before_unfreeze := none }).set_before_unfreeze f).before_unfreeze = some f ∧
    (∀ f0 : UnfreezeCb,
      (({ c with before_unfreeze := some f0 }).set_before_unfreeze f).before_unfreeze = some f) ∧
    (({ c with before_chroot := none }).set_before_chroot g).before_chroot = some g ∧
    (∀ g0 : ChrootCb,
      (({ c with before_chroot := some g0 }).set_before_chroot g).before_chroot = some g) ∧
    (({ c with before_exec := none }).set_before_exec k).before_exec = some k ∧
    (∀ k0 : ExecCb,
      (({ c with before_exec := some k0 }).set_before_exec k).before_exec = some k) :=
  ⟨rfl, fun _ => rfl, rfl, fun _ => rfl, rfl, fun _ => rfl⟩

/-- Concrete command with no callbacks registered, for the witnesses. -/
def cmd0 : Command :=
  { argv := ["prog"], env := [], workdir := "/", chroot_dir := "/jail",
    uid_map := [(0, 1000, 1)], gid_map := [(0, 1000, 1)],
    before_unfreeze := none, before_chroot := none, before_exec := none }

/-- Concrete OS oracle on which every step succeeds. -/
def os0 : OsOracle :=
  { uidMapResult := Except.ok (), chrootResult := Except.ok (),
    execResult := Except.ok () }

/-- A concrete succeeding `before_unfreeze` callback. -/
def fU1 : UnfreezeCb := fun _ => Except.ok ()

/-- A concrete failing `before_unfreeze` callback (OS code 13). -/
def fU2 : UnfreezeCb := fun _ => Except.error ⟨13⟩

/-- Concrete command whose `before_unfreeze` callback fails with code 13. -/
def cmdUF : Command := cmd0.set_before_unfreeze fU2

/-- Concrete command whose `before_chroot` callback fails with code 2. -/
def cmdCF : Command := cmd0.set_before_chroot (fun _ => Except.error ⟨2⟩)

/-- Concrete command whose `before_exec` callback fails with code 5. -/
def cmdEF : Command := cmd0.set_before_exec (fun _ => Except.error ⟨5⟩)

/-- Witness for C1 at a concrete two-registration sequence. -/
theorem last_registration_wins_witness :
    (registerAllUnfreeze cmd0 [fU1, fU2]).before_unfreeze = some fU2 ∧
    spawn (registerAllUnfreeze cmd0 [fU1, fU2]) 7 os0
      = spawn (cmd0.set_before_unfreeze fU2) 7 os0 :=
  (last_registration_wins cmd0 7 os0).1 [fU1, fU2] fU2 rfl

/-- Witness for C3 at the spec's scenario: `before_unfreeze` fails with OS
code 13. -/
theorem unfreeze_failure_kills_child_witness :
    (spawn cmdUF 7 os0).result = Except.error (SpawnError.UnfreezeCallbackError 13) ∧
    Event.barrierRelease ∉ (spawn cmdUF 7 os0).events ∧
    Event.beforeChrootDone ∉ (spawn cmdUF 7 os0).events ∧
    Event.beforeExecDone ∉ (spawn cmdUF 7 os0).events ∧
    (spawn cmdUF 7 os0).writes = [] ∧
    (spawn cmdUF 7 os0).childExists = false :=
  unfreeze_failure_kills_child cmdUF 7 os0 fU2 ⟨13⟩ rfl rfl rfl

/-- Witness for C4 at a concrete `before_chroot` failure with OS code 2. -/
theorem child_failure_reports_and_stops_witness :
    (spawn cmdCF 7 os0).writes = [⟨Stage.Chroot, 2⟩] ∧
    (spawn cmdCF 7 os0).result = Except.error (SpawnError.ChrootCallbackError 2) ∧
    (spawn cmdCF 7 os0).childState = ChildState.Failed Stage.Chroot ∧
    (spawn cmdCF 7 os0).childExists = false ∧
    Event.chrootDone ∉ (spawn cmdCF 7 os0).events ∧
    Event.beforeExecDone ∉ (spawn cmdCF 7 os0).events ∧
    Event.execDone ∉ (spawn cmdCF 7 os0).events :=
  (child_failure_reports_and_stops cmdCF 7 os0 rfl rfl).1 ⟨2⟩ rfl

/-- Witness for C5 at a concrete report with a negative code and a concrete
`before_exec` failure with OS code 5. -/
theorem error_channel_wire_format_witness :
    decodeReport (encodeReport ⟨Stage.Exec, -13⟩) = some ⟨Stage.Exec, -13⟩ ∧
    (spawn cmdEF 7 os0).writes = [⟨Stage.Exec, 5⟩] ∧
    (spawn cmdEF 7 os0).result = Except.error (SpawnError.ExecCallbackError 5) :=
  ⟨((error_channel_wire_format cmdEF 7 os0).2.1 ⟨Stage.Exec, -13⟩).2
      (by decide) (by decide),
   ((error_channel_wire_format cmdEF 7 os0).2.2.2 ⟨5⟩ rfl rfl rfl rfl rfl).1,
   ((error_channel_wire_format cmdEF 7 os0).2.2.2 ⟨5⟩ rfl rfl rfl rfl rfl).2⟩

/-- Witness for C8 on the concrete callback-free command. -/
theorem spawn_no_callbacks_execs_witness :
    (spawn cmd0 7 os0).childState = ChildState.Execd ∧
    (spawn cmd0 7 os0).writes = [] ∧
    (spawn cmd0 7 os0).result = Except.ok 7 :=
  spawn_no_callbacks_execs cmd0 7 os0 rfl rfl rfl rfl rfl rfl

end Unshare
